import Mathlib

/-!
Verification of the KPI dashboard (`app.py`).

The program is a single-file Streamlit dashboard: it loads an Excel file
into a pandas DataFrame, truncates it to 10,000 rows, classifies columns
as numeric (`select_dtypes(include=[np.number])`) or categorical
(`select_dtypes(include=['object'])`), renders KPI cards (`sum` / `mean`
per selected numeric column), four chart builders (bar, line, histogram,
pie) and a `describe()` summary table, all inside one top-level
`try/except` handler.

The embedding below models a DataFrame as a list of typed columns
(each cell a number, a string, a missing value, or a value of some other
unsupported dtype), and models the pandas calls the source makes
(`head`, `sum`, `mean`, `groupby(...)[...].sum()` with its default
ascending key sort, `nlargest` with its stable first-occurrence
tie-breaking, `describe`) as executable Lean functions on that model.
Machine floats are modelled by exact rationals; the one irrational
quantity (the sample standard deviation) is modelled as a real square
root of the rational sample variance.
-/

/-- A cell of a DataFrame column: a numeric value, a string, a missing
value (NaN/None), or a value of a dtype that is neither numeric nor
object (e.g. a datetime) — the source never looks inside such cells. -/
inductive Value where
  | num (q : ℚ)
  | str (s : String)
  | missing
  | otherVal
deriving DecidableEq

/-- The pandas dtype of a column, as far as `select_dtypes` in the source
distinguishes them: numeric (`np.number`), object (strings), or any
other dtype (datetime, bool, ...). -/
inductive Dtype where
  | num
  | obj
  | other
deriving DecidableEq

/-- Numeric payload of a cell, if any. -/
def Value.num? : Value → Option ℚ
  | .num q => some q
  | _ => none

/-- String payload of a cell, if any. -/
def Value.str? : Value → Option String
  | .str s => some s
  | _ => none

/-- One DataFrame column: its name, its dtype, and its cells in row order. -/
structure Col where
  name : String
  dtype : Dtype
  cells : List Value
deriving DecidableEq

/-- A DataFrame: an ordered list of columns (all of equal length in a
well-formed frame; row-count is read off the first column as pandas'
`len(df)` reads the index length). -/
abbrev Table := List Col

/-- `len(df)`: the number of rows. -/
def Table.nrows : Table → ℕ
  | [] => 0
  | c :: _ => c.cells.length

/-- `df.head(n)` restricted to one column: keep the first `n` cells. -/
def Col.head (n : ℕ) (c : Col) : Col :=
  { c with cells := c.cells.take n }

/-- `df.head(n)`: the first `n` rows of every column. -/
def Table.head (t : Table) (n : ℕ) : Table :=
  t.map (Col.head n)

/-- The non-missing numeric cells of a column, in row order.  This is the
data every pandas numeric reduction (`sum`, `mean`, `describe`) works on,
since pandas skips NaN by default. -/
def Col.numCells (c : Col) : List ℚ :=
  c.cells.filterMap Value.num?

/-- The row-limit guard of `app.py` lines 64-66: if the frame has more
than 10,000 rows, replace it by its first 10,000 rows and flag that the
truncation advisory is to be shown. -/
def truncateTable (t : Table) : Table × Bool :=
  if 10000 < t.nrows then (t.head 10000, true) else (t, false)

/-- `df.select_dtypes(include=[np.number]).columns.tolist()` (line 88). -/
def numericColumns (t : Table) : List String :=
  (t.filter (fun c => decide (c.dtype = Dtype.num))).map Col.name

/-- `df.select_dtypes(include=['object']).columns.tolist()` (line 148). -/
def categoricalCols (t : Table) : List String :=
  (t.filter (fun c => decide (c.dtype = Dtype.obj))).map Col.name

/-- `df[col].sum()` (line 106): the sum of the non-missing values. -/
def colSum (c : Col) : ℚ := c.numCells.sum

/-- `df[col].mean()` (line 107): the mean of the non-missing values
(pandas excludes NaN from both the numerator and the denominator). -/
def colMean (c : Col) : ℚ := c.numCells.sum / c.numCells.length

/-- The distinct group keys of `df.groupby(cat_col)` for a string-typed
category column: the distinct non-missing string values of the column,
in ascending order — pandas `groupby` sorts group keys by default
(`sort=True`), and rows whose key is missing are dropped
(`dropna=True`).  The ascending order on strings is stated on the
underlying character lists (`String`'s own order is definitionally the
lexicographic order on `data`, but its decision procedure does not
evaluate inside the kernel). -/
def groupKeys (cat : List Value) : List String :=
  ((cat.filterMap Value.str?).dedup).insertionSort (fun a b => a.data ≤ b.data)

/-- `df.groupby(cat_col)[val_col].sum().reset_index()` (line 41 of
`app.py`) for a string-typed category column: one row per group key, in
ascending key order, carrying the NaN-skipping sum of the value column
over the rows of that group (pandas sums with `min_count=0`, so a group
with no numeric value sums to 0). -/
def pieGroups (cat val : List Value) : List (String × ℚ) :=
  (groupKeys cat).map (fun k =>
    (k, (((cat.zip val).filter (fun p => decide (p.1 = Value.str k))).filterMap
          (fun p => p.2.num?)).sum))

/-- `pie_data.nlargest(10, val_col)` (line 43 of `app.py`): the first
`n` rows of the frame stably sorted by the value column in descending
order.  Pandas `nlargest` with the default `keep='first'` keeps the
earlier of two tied rows, i.e. it is exactly a stable descending sort
followed by `take n`; insertion sort with the relation
`fun a b => b.2 ≤ a.2` is such a stable descending sort (an element is
inserted before the first element whose value is `≤` its own, so
earlier rows stay before tied later rows). -/
def nlargest (n : ℕ) (l : List (String × ℚ)) : List (String × ℚ) :=
  (l.insertionSort (fun a b => b.2 ≤ a.2)).take n

/-- The pie aggregation of `create_pie_chart` (lines 40-45 of `app.py`)
at the level of the two cell lists: group, sum, keep the top 10. -/
def pieSlices (cat val : List Value) : List (String × ℚ) :=
  nlargest 10 (pieGroups cat val)

/-- `create_pie_chart` (lines 40-45 of `app.py`) as invoked on a frame:
look the two columns up and aggregate.  A missing column raises a
`KeyError` in the source and a non-numeric value column makes
`nlargest` raise a `TypeError`; both are modelled by the error case
(grouping by a non-string-typed key column is not modelled, the app
only ever passes object-typed category columns). -/
def create_pie_chart (df : Table) (cat_col val_col : String) :
    Except String (List (String × ℚ)) :=
  match df.find? (fun c => decide (c.name = cat_col)),
        df.find? (fun c => decide (c.name = val_col)) with
  | some cc, some vc =>
    if cc.dtype = Dtype.obj ∧ vc.dtype = Dtype.num then
      .ok (pieSlices cc.cells vc.cells)
    else .error "TypeError"
  | _, _ => .error "KeyError"

/-- `a` must come no later than `b` in the stably-descending-sorted pie
frame: `b`'s sum is at most `a`'s, and on a tie `a`'s key is strictly
smaller (keys are distinct and the pre-sort frame is in ascending key
order, so stability puts the smaller key first). -/
def PieBefore (a b : String × ℚ) : Prop :=
  b.2 ≤ a.2 ∧ (b.2 = a.2 → a.1 < b.1)

/-- Modelled from the spec's words in claim C2, not from the source
(the source sorts group keys): the group keys in original
first-encounter order. -/
def encounterKeys (cat : List Value) : List String :=
  cat.foldl (fun acc v =>
    match v.str? with
    | some s => if s ∈ acc then acc else acc ++ [s]
    | none => acc) []

/-- Modelled from the spec's words in claim C2: the per-group sums
listed in first-encounter order rather than sorted key order. -/
def pieGroupsEncounter (cat val : List Value) : List (String × ℚ) :=
  (encounterKeys cat).map (fun k =>
    (k, (((cat.zip val).filter (fun p => decide (p.1 = Value.str k))).filterMap
          (fun p => p.2.num?)).sum))

/-- Modelled from the spec's words in claim C2: the top-10 selection
applied to the encounter-ordered groups, under which a first-encountered
group wins a tie. -/
def pieSlicesEncounter (cat val : List Value) : List (String × ℚ) :=
  nlargest 10 (pieGroupsEncounter cat val)

/-- Eleven categories, first encountered "z", then "a".."j", all with
value 1: eleven groups all tied at sum 1. -/
def exPieCat : List Value :=
  [.str "z", .str "a", .str "b", .str "c", .str "d", .str "e",
   .str "f", .str "g", .str "h", .str "i", .str "j"]

def exPieVal : List Value := List.replicate 11 (Value.num 1)

/-- `create_bar_chart` (lines 21-26 of `app.py`): take the first 20 rows
(`df.head(limit)` in original row order, not sorted by value), then draw
one bar per retained row from the chosen column.  A column absent from
the frame raises the library's `KeyError`, modelled by the error case. -/
def create_bar_chart (df : Table) (column : String) : Except String (List Value) :=
  match (df.head 20).find? (fun c => decide (c.name = column)) with
  | some c => .ok c.cells
  | none => .error "KeyError"

/-- `create_line_chart` (lines 28-32 of `app.py`): the first 50 rows of
the chosen column in original row order. -/
def create_line_chart (df : Table) (column : String) : Except String (List Value) :=
  match (df.head 50).find? (fun c => decide (c.name = column)) with
  | some c => .ok c.cells
  | none => .error "KeyError"

/-- `create_histogram` (lines 34-37 of `app.py`): the full column, 20
bins. -/
def create_histogram (df : Table) (column : String) :
    Except String (List Value × ℕ) :=
  match df.find? (fun c => decide (c.name = column)) with
  | some c => .ok (c.cells, 20)
  | none => .error "KeyError"

/-- `count` in `describe()`: the number of non-missing values. -/
def describeCount (xs : List ℚ) : ℕ := xs.length

/-- `mean` in `describe()`: the mean of the non-missing values. -/
def describeMean (xs : List ℚ) : ℚ := xs.sum / xs.length

/-- The sample variance with the unbiased `n - 1` denominator, as pandas
`describe()` computes the standard deviation (`ddof=1`); the displayed
`std` is its square root, `sampleStd`. -/
def sampleVar (xs : List ℚ) : ℚ :=
  (xs.map (fun x => (x - describeMean xs) ^ 2)).sum / ((xs.length - 1 : ℕ) : ℚ)

/-- `std` in `describe()`: the square root of the sample variance, as a
real number (the source's floats approximate it). -/
noncomputable def sampleStd (xs : List ℚ) : ℝ :=
  Real.sqrt ((sampleVar xs : ℚ) : ℝ)

/-- A percentile with linear interpolation — numpy's default method and
the one `describe()` uses: with the values sorted ascending and
`h = p * (n - 1)`, interpolate between the values at positions `⌊h⌋`
and `⌊h⌋ + 1`. -/
def percentile (xs : List ℚ) (p : ℚ) : ℚ :=
  let sorted := xs.insertionSort (fun a b => a ≤ b)
  let h : ℚ := p * ((xs.length : ℚ) - 1)
  let i : ℕ := h.floor.toNat
  let lo := sorted.getD i 0
  let hi := sorted.getD (i + 1) lo
  lo + (h - (i : ℚ)) * (hi - lo)

/-- One column of the `df[numeric_columns].describe()` output (line
159): its eight statistics.  The standard deviation is carried as the
sample variance, its exact square. -/
structure ColStats where
  count : ℕ
  mean : ℚ
  var : ℚ
  min : Option ℚ
  q25 : ℚ
  q50 : ℚ
  q75 : ℚ
  max : Option ℚ
deriving DecidableEq

/-- The eight statistics of one numeric column, computed on its
non-missing values as pandas does. -/
def describeCol (c : Col) : ColStats :=
  { count := describeCount c.numCells
    mean := describeMean c.numCells
    var := sampleVar c.numCells
    min := c.numCells.min?
    q25 := percentile c.numCells (1/4)
    q50 := percentile c.numCells (1/2)
    q75 := percentile c.numCells (3/4)
    max := c.numCells.max? }

/-- The row labels (the index) of the `describe()` output: pandas
`DataFrame.describe` on numeric data always produces exactly these
eight statistic rows (default percentiles 25/50/75). -/
def statNames : List String :=
  ["count", "mean", "std", "min", "25%", "50%", "75%", "max"]

/-- `df[numeric_columns].describe()` (line 159): one output column per
numeric column of the frame, each carrying the eight statistics. -/
def describeTable (df : Table) : List (String × ColStats) :=
  (df.filter (fun c => decide (c.dtype = Dtype.num))).map
    (fun c => (c.name, describeCol c))

/-- The number of rows of the displayed summary-statistics dataframe:
the `describe()` index is the eight statistic names, whatever the
frame. -/
def statsRowCount (_df : Table) : ℕ := statNames.length

/-- The number of columns of the displayed summary-statistics
dataframe. -/
def statsColCount (df : Table) : ℕ := (describeTable df).length

/-- One visible element of the rendered page, in render order. -/
inductive RenderItem where
  | warning (msg : String)
  | successMsg (rows cols : ℕ)
  | preview (t : Table)
  | metric (label : String) (value : ℕ)
  | subheader (title : String)
  | kpiCard (column : String) (total avg : ℚ)
  | barChart (column : String) (data : List Value)
  | lineChart (column : String) (data : List Value)
  | histChart (column : String) (data : List Value) (nbins : ℕ)
  | pieChart (catCol valCol : String) (slices : List (String × ℚ))
  | statsTable (stats : List (String × ColStats))
  | errorMsg (msg : String)
  | info (msg : String)
deriving DecidableEq

/-- The truncation advisory of line 65 (the row count interpolated into
the message is the pre-truncation one). -/
def truncMsg (n : ℕ) : String :=
  "⚠️ Large dataset detected (" ++ toString n ++
    " rows). Using first 10,000 rows for performance."

/-- The warning of line 162. -/
def noNumericMsg : String :=
  "⚠️ No numeric columns found in your data. Please ensure your Excel file contains numeric data for KPI calculations."

/-- The two items the top-level `except` handler renders (lines
164-166): a generic error message carrying the exception text, and the
file-format hint. -/
def errorPage (e : String) : List RenderItem :=
  [.errorMsg ("❌ Error reading the Excel file: " ++ e),
   .info "Please make sure your file is a valid Excel format (.xlsx or .xls)"]

/-- The selector state the framework feeds back on every rerun: the
rows picked in the KPI multiselect and the position of each of the four
single-select dropdowns. -/
structure Widgets where
  kpiSel : List ℕ
  barIdx : ℕ
  lineIdx : ℕ
  histIdx : ℕ
  pieCatIdx : ℕ
  pieValIdx : ℕ

/-- `st.selectbox`: with a nonempty option list the widget always
returns one of the options, whatever its stored position (the framework
resets out-of-range state); with an empty option list it yields
nothing. -/
def selectbox (options : List String) (idx : ℕ) : Option String :=
  if options.isEmpty then none else options.get? (idx % options.length)

/-- The `st.multiselect` result (lines 95-99): the widget can only
return members of its option list, here indexed by the stored row
numbers. -/
def selectedKpi (options : List String) (sel : List ℕ) : List String :=
  sel.filterMap options.get?

/-- The KPI card loop (lines 101-112): one card per selected column,
showing `df[col].sum()` and `df[col].mean()`. -/
def kpiCards (df : Table) (names : List String) : List RenderItem :=
  names.filterMap (fun nm =>
    (df.find? (fun c => decide (c.name = nm))).map
      (fun c => RenderItem.kpiCard nm (colSum c) (colMean c)))

/-- The bar panel (lines 121-125): the selectbox over the numeric
columns, then `create_bar_chart` on the selection. -/
def barStep (df : Table) (nc : List String) (w : Widgets) :
    Except String (List RenderItem) :=
  match selectbox nc w.barIdx with
  | none => .ok []
  | some col => (create_bar_chart df col).map (fun d => [.barChart col d])

/-- The line panel (lines 129-133). -/
def lineStep (df : Table) (nc : List String) (w : Widgets) :
    Except String (List RenderItem) :=
  match selectbox nc w.lineIdx with
  | none => .ok []
  | some col => (create_line_chart df col).map (fun d => [.lineChart col d])

/-- The histogram panel (lines 140-144). -/
def histStep (df : Table) (nc : List String) (w : Widgets) :
    Except String (List RenderItem) :=
  match selectbox nc w.histIdx with
  | none => .ok []
  | some col => (create_histogram df col).map (fun d => [.histChart col d.1 d.2])

/-- The pie panel (lines 147-155): only drawn when categorical columns
exist; the category selectbox ranges over the object-typed columns, the
value selectbox over the numeric ones. -/
def pieStep (df : Table) (nc : List String) (w : Widgets) :
    Except String (List RenderItem) :=
  let cats := categoricalCols df
  if cats.isEmpty then .ok []
  else
    match selectbox cats w.pieCatIdx, selectbox nc w.pieValIdx with
    | some cc, some vc =>
      (create_pie_chart df cc vc).map (fun s => [.pieChart cc vc s])
    | _, _ => .ok []

/-- The items lines 64-85 render unconditionally once the frame is
loaded: the optional truncation advisory, the success message (with the
post-truncation row count), the data preview, the three metric cards
and the configure header. -/
def commonItems (df0 : Table) : List RenderItem :=
  (if (truncateTable df0).2 then [RenderItem.warning (truncMsg df0.nrows)]
   else []) ++
  [.successMsg (truncateTable df0).1.nrows (truncateTable df0).1.length,
   .preview ((truncateTable df0).1.head 10),
   .metric "Total Rows" (truncateTable df0).1.nrows,
   .metric "Total Columns" (truncateTable df0).1.length,
   .metric "Numeric Columns" (numericColumns (truncateTable df0).1).length,
   .subheader "🎯 Configure Your KPIs"]

/-- The KPI header, cards and visualizations header (lines 92-115). -/
def kpiSection (df : Table) (w : Widgets) : List RenderItem :=
  [RenderItem.subheader "📈 Key Performance Indicators"] ++
  kpiCards df (selectedKpi (numericColumns df) w.kpiSel) ++
  [RenderItem.subheader "📊 Visualizations"]

/-- The KPI cards, the four chart panels and the summary table (lines
90-159), rendered sequentially.  A library error from a chart builder
aborts the render at that point: the items already drawn stay on the
page (Streamlit renders incrementally) and the exception propagates to
the top-level handler. -/
def renderRest (df : Table) (w : Widgets) : List RenderItem × Option String :=
  match barStep df (numericColumns df) w with
  | .error e => (kpiSection df w, some e)
  | .ok i1 =>
    match lineStep df (numericColumns df) w with
    | .error e => (kpiSection df w ++ i1, some e)
    | .ok i2 =>
      match histStep df (numericColumns df) w with
      | .error e => (kpiSection df w ++ i1 ++ i2, some e)
      | .ok i3 =>
        match pieStep df (numericColumns df) w with
        | .error e => (kpiSection df w ++ i1 ++ i2 ++ i3, some e)
        | .ok i4 =>
          (kpiSection df w ++ i1 ++ i2 ++ i3 ++ i4 ++
            [RenderItem.subheader "📋 Summary Statistics",
             RenderItem.statsTable (describeTable df)], none)

/-- The body of the `try` block (lines 59-162) once a file is present:
truncate, render the common items, then either the warning branch (no
numeric columns, line 162) or the KPI/chart/stats sections. -/
def renderLoaded (df0 : Table) (w : Widgets) : List RenderItem × Option String :=
  if (numericColumns (truncateTable df0).1).isEmpty then
    (commonItems df0 ++ [RenderItem.warning noNumericMsg], none)
  else
    (commonItems df0 ++ (renderRest (truncateTable df0).1 w).1,
     (renderRest (truncateTable df0).1 w).2)

/-- The whole `try/except` block: the input is the outcome of parsing
the uploaded bytes (`load_excel_data` either returns a frame or raises);
any exception from loading or from the pipeline is caught by the single
top-level handler of lines 164-166, which renders the generic error
message and the format hint after whatever was already drawn, and the
script ends normally — nothing escapes to kill the process. -/
def runApp (inp : Except String Table) (w : Widgets) : List RenderItem :=
  match inp with
  | .error e => errorPage e
  | .ok df0 =>
    match renderLoaded df0 w with
    | (items, none) => items
    | (items, some e) => items ++ errorPage e

/-- Is the item one of the KPI-card, chart or summary-statistics items
(the sections suppressed when no numeric column exists)? -/
def RenderItem.isKpiChartOrStats : RenderItem → Bool
  | .kpiCard _ _ _ => true
  | .barChart _ _ => true
  | .lineChart _ _ => true
  | .histChart _ _ _ => true
  | .pieChart _ _ _ => true
  | .statsTable _ => true
  | _ => false

/-- A numeric column with a missing value, for the KPI witness. -/
def exKpiCol : Col :=
  ⟨"amount", Dtype.num, [Value.num 3, Value.missing, Value.num 1]⟩

/-- The same cells as `exKpiCol`, reordered. -/
def exKpiColPerm : Col :=
  ⟨"amount", Dtype.num, [Value.num 1, Value.num 3, Value.missing]⟩

/-- The hand-computed fixture of claim C4: a numeric column holding
[1, 2, 3, 4, 5]. -/
def exStatsCol : Col :=
  ⟨"v", Dtype.num,
   [Value.num 1, Value.num 2, Value.num 3, Value.num 4, Value.num 5]⟩

/-- A small example frame: one numeric, one categorical and one
datetime-like column, three rows. -/
def exTable : Table :=
  [⟨"amount", Dtype.num, [Value.num 3, Value.missing, Value.num 1]⟩,
   ⟨"region", Dtype.obj, [Value.str "east", Value.str "west", Value.str "east"]⟩,
   ⟨"when", Dtype.other, [Value.otherVal, Value.otherVal, Value.otherVal]⟩]

/-- A frame with no numeric column. -/
def exNoNumTable : Table :=
  [⟨"region", Dtype.obj, [Value.str "east", Value.str "west"]⟩]

/-- A frame with 10,001 rows. -/
def exBigTable : Table :=
  [⟨"v", Dtype.num, List.replicate 10001 (Value.num 1)⟩]

/-- A concrete widget state. -/
def exWidgets : Widgets := ⟨[0], 0, 0, 0, 0, 0⟩

theorem Table.nrows_head_of_lt (t : Table) (n : ℕ) (h : n < t.nrows) :
    (t.head n).nrows = n := by
  match t with
  | [] => simp [Table.nrows] at h
  | c :: cs =>
    simp only [Table.head, List.map, Table.nrows, Col.head, List.length_take]
    exact Nat.min_eq_left (Nat.le_of_lt h)

theorem truncate_gt (t : Table) (h : 10000 < t.nrows) :
    truncateTable t = (t.head 10000, true) ∧ (t.head 10000).nrows = 10000 := by
  refine ⟨?_, Table.nrows_head_of_lt t 10000 h⟩
  simp [truncateTable, h]

theorem pairwise_orderedInsert_pieBefore (a : String × ℚ) :
    ∀ L : List (String × ℚ), L.Pairwise PieBefore → (∀ x ∈ L, a.1 < x.1) →
      (List.orderedInsert (fun x y => y.2 ≤ x.2) a L).Pairwise PieBefore := by
  intro L
  induction L with
  | nil => intro _ _; simp [List.orderedInsert, PieBefore]
  | cons y ys ih =>
    intro hP hk
    rw [List.pairwise_cons] at hP
    by_cases hya : y.2 ≤ a.2
    · have hins : List.orderedInsert (fun x y => y.2 ≤ x.2) a (y :: ys) =
          a :: y :: ys := by
        simp [List.orderedInsert, hya]
      rw [hins]
      refine List.Pairwise.cons ?_ (List.pairwise_cons.mpr hP)
      intro z hz
      rcases List.mem_cons.mp hz with rfl | hz
      · exact ⟨hya, fun he => hk z (List.mem_cons_self _ _)⟩
      · exact ⟨le_trans (hP.1 z hz).1 hya, fun he => hk z (List.mem_cons_of_mem _ hz)⟩
    · have hlt : a.2 < y.2 := lt_of_not_le hya
      have hins : List.orderedInsert (fun x y => y.2 ≤ x.2) a (y :: ys) =
          y :: List.orderedInsert (fun x y => y.2 ≤ x.2) a ys := by
        simp [List.orderedInsert, hya]
      rw [hins]
      refine List.Pairwise.cons ?_
        (ih hP.2 (fun x hx => hk x (List.mem_cons_of_mem _ hx)))
      intro z hz
      rcases (List.mem_orderedInsert _).mp hz with rfl | hz
      · exact ⟨le_of_lt hlt, fun he => absurd he (ne_of_lt hlt)⟩
      · exact hP.1 z hz

theorem pairwise_insertionSort_pieBefore :
    ∀ L : List (String × ℚ), L.Pairwise (fun a b => a.1 < b.1) →
      (L.insertionSort (fun x y => y.2 ≤ x.2)).Pairwise PieBefore := by
  intro L
  induction L with
  | nil => intro _; simp [List.insertionSort]
  | cons a l ih =>
    intro hQ
    rw [List.pairwise_cons] at hQ
    rw [List.insertionSort]
    refine pairwise_orderedInsert_pieBefore a _ (ih hQ.2) ?_
    intro x hx
    exact hQ.1 x ((List.perm_insertionSort _ l).subset hx)

theorem pieGroups_keys_strict (cat val : List Value) :
    (pieGroups cat val).Pairwise (fun a b => a.1 < b.1) := by
  unfold pieGroups
  rw [List.pairwise_map]
  haveI : IsTotal String (fun a b => a.data ≤ b.data) :=
    ⟨fun a b => le_total a.data b.data⟩
  haveI : IsTrans String (fun a b => a.data ≤ b.data) :=
    ⟨fun _ _ _ hab hbc => le_trans hab hbc⟩
  have hs : List.Pairwise (fun a b : String => a.data ≤ b.data) (groupKeys cat) :=
    List.sorted_insertionSort _ _
  have hn : (groupKeys cat).Nodup :=
    ((List.perm_insertionSort _ _).symm).nodup
      (List.nodup_dedup (cat.filterMap Value.str?))
  refine (hs.and hn).imp (fun h => ?_)
  exact String.lt_iff_toList_lt.mpr
    (lt_of_le_of_ne h.1 (fun hd => h.2 (String.ext hd)))

/-- Claim C2 (amended): the pie aggregation returns at most 10 groups —
exactly the groups of largest sums, with ties broken by ascending
category-name order (the grouped frame is sorted by group key, so on
equal sums `nlargest`'s first-occurrence preference keeps the
lexicographically smaller keys): every retained group is a real group,
exactly `min 10 (number of groups)` are retained, and every discarded
group either has a strictly smaller sum than every retained group or
ties one with a strictly larger category name. -/
theorem pie_top10_sorted_tiebreak (cat val : List Value) :
    (pieSlices cat val).length = min 10 (pieGroups cat val).length ∧
    (∀ g ∈ pieSlices cat val, g ∈ pieGroups cat val) ∧
    (∀ g ∈ pieGroups cat val, g ∉ pieSlices cat val →
      ∀ g₂ ∈ pieSlices cat val, g.2 < g₂.2 ∨ (g.2 = g₂.2 ∧ g₂.1 < g.1)) := by
  have hperm :
      ((pieGroups cat val).insertionSort (fun x y => y.2 ≤ x.2)).Perm
        (pieGroups cat val) := List.perm_insertionSort _ _
  have hsl : pieSlices cat val =
      ((pieGroups cat val).insertionSort (fun x y => y.2 ≤ x.2)).take 10 := rfl
  refine ⟨?_, ?_, ?_⟩
  · rw [hsl, List.length_take, hperm.length_eq]
  · intro g hg
    rw [hsl] at hg
    exact hperm.subset (List.take_subset _ _ hg)
  · intro g hgG hgn g₂ hg₂
    have hPW : ((pieGroups cat val).insertionSort
        (fun x y => y.2 ≤ x.2)).Pairwise PieBefore :=
      pairwise_insertionSort_pieBefore _ (pieGroups_keys_strict cat val)
    have hsplit := List.take_append_drop 10
      ((pieGroups cat val).insertionSort (fun x y => y.2 ≤ x.2))
    have hgL : g ∈ (pieGroups cat val).insertionSort (fun x y => y.2 ≤ x.2) :=
      hperm.symm.subset hgG
    have hgdrop : g ∈ ((pieGroups cat val).insertionSort
        (fun x y => y.2 ≤ x.2)).drop 10 := by
      rcases List.mem_append.mp (by rw [hsplit]; exact hgL) with h | h
      · rw [hsl] at hgn; exact absurd h hgn
      · exact h
    have hcross := (List.pairwise_append.mp (by rw [hsplit]; exact hPW)).2.2
    have hpb : PieBefore g₂ g := hcross g₂ (by rw [hsl] at hg₂; exact hg₂) g hgdrop
    rcases hpb.1.lt_or_eq with hlt | heq
    · exact Or.inl hlt
    · exact Or.inr ⟨heq, hpb.2 heq⟩

theorem pieGroups_ex_eq : pieGroups exPieCat exPieVal =
    [("a",1),("b",1),("c",1),("d",1),("e",1),("f",1),("g",1),("h",1),
     ("i",1),("j",1),("z",1)] := by
  simp +decide [pieGroups, groupKeys, exPieCat, exPieVal, List.insertionSort,
    List.orderedInsert, Value.str?, Value.num?, List.dedup_cons_of_mem,
    List.dedup_cons_of_not_mem, List.replicate]

theorem pieGroupsEncounter_ex_eq : pieGroupsEncounter exPieCat exPieVal =
    [("z",1),("a",1),("b",1),("c",1),("d",1),("e",1),("f",1),("g",1),
     ("h",1),("i",1),("j",1)] := by
  simp +decide [pieGroupsEncounter, encounterKeys, exPieCat, exPieVal,
    Value.str?, Value.num?, List.replicate]

theorem pieSlices_ex_eq : pieSlices exPieCat exPieVal =
    [("a",1),("b",1),("c",1),("d",1),("e",1),("f",1),("g",1),("h",1),
     ("i",1),("j",1)] := by
  rw [pieSlices, pieGroups_ex_eq]; rfl

theorem pieSlicesEncounter_ex_eq : pieSlicesEncounter exPieCat exPieVal =
    [("z",1),("a",1),("b",1),("c",1),("d",1),("e",1),("f",1),("g",1),
     ("h",1),("i",1)] := by
  rw [pieSlicesEncounter, pieGroupsEncounter_ex_eq]; rfl

/-- Claim C2 counterexample: with eleven groups all tied at sum 1 and
"z" encountered first, first-encounter tie-breaking (the claim's words,
`pieSlicesEncounter`) keeps "z", but the code (`pieSlices`) drops "z"
and keeps "j", because the grouped frame is sorted by key before the
top-10 cut. -/
theorem pie_tiebreak_encounter_counterexample :
    ("z", (1:ℚ)) ∈ pieGroups exPieCat exPieVal ∧
    (∀ g ∈ pieGroups exPieCat exPieVal, g.2 = 1) ∧
    ("z", (1:ℚ)) ∈ pieSlicesEncounter exPieCat exPieVal ∧
    ("z", (1:ℚ)) ∉ pieSlices exPieCat exPieVal ∧
    ("j", (1:ℚ)) ∈ pieSlices exPieCat exPieVal := by
  refine ⟨by rw [pieGroups_ex_eq]; decide, by rw [pieGroups_ex_eq]; decide,
    by rw [pieSlicesEncounter_ex_eq]; decide,
    by rw [pieSlices_ex_eq]; decide, by rw [pieSlices_ex_eq]; decide⟩

/-- Witness for the amended pie claim at the eleven-tied-groups example:
the dropped group ("z", 1) ties the retained group ("a", 1) and loses
the tie on the key order. -/
theorem pie_top10_sorted_tiebreak_witness :
    (pieSlices exPieCat exPieVal).length =
      min 10 (pieGroups exPieCat exPieVal).length ∧
    ((1:ℚ) < 1 ∨ ((1:ℚ) = 1 ∧ ("a" : String) < "z")) := by
  refine ⟨(pie_top10_sorted_tiebreak exPieCat exPieVal).1, ?_⟩
  exact (pie_top10_sorted_tiebreak exPieCat exPieVal).2.2 ("z", 1)
    (by rw [pieGroups_ex_eq]; decide) (by rw [pieSlices_ex_eq]; decide)
    ("a", 1) (by rw [pieSlices_ex_eq]; decide)

theorem runApp_ok_prefix (df0 : Table) (w : Widgets) :
    ∃ rest, runApp (.ok df0) w = commonItems df0 ++ rest := by
  by_cases hnc : (numericColumns (truncateTable df0).1).isEmpty
  · refine ⟨[RenderItem.warning noNumericMsg], ?_⟩
    simp [runApp, renderLoaded, hnc]
  · cases h2 : (renderRest (truncateTable df0).1 w).2 with
    | none =>
      refine ⟨(renderRest (truncateTable df0).1 w).1, ?_⟩
      simp [runApp, renderLoaded, hnc, h2]
    | some e =>
      refine ⟨(renderRest (truncateTable df0).1 w).1 ++ errorPage e, ?_⟩
      simp [runApp, renderLoaded, hnc, h2]

/-- Claim C1: once a frame is loaded, if it has more than 10,000 rows
the pipeline works on exactly its first 10,000 rows (the row count
becomes 10,000) and the truncation advisory is rendered; if it has at
most 10,000 rows it is left unchanged and the success message displays
the input row count. -/
theorem truncation_guard (df0 : Table) (w : Widgets) :
    (10000 < df0.nrows →
      truncateTable df0 = (df0.head 10000, true) ∧
      (truncateTable df0).1.nrows = 10000 ∧
      RenderItem.warning (truncMsg df0.nrows) ∈ runApp (.ok df0) w) ∧
    (df0.nrows ≤ 10000 →
      truncateTable df0 = (df0, false) ∧
      RenderItem.successMsg df0.nrows df0.length ∈ runApp (.ok df0) w) := by
  obtain ⟨rest, hpre⟩ := runApp_ok_prefix df0 w
  constructor
  · intro h
    have h1 : truncateTable df0 = (df0.head 10000, true) := by
      simp [truncateTable, h]
    refine ⟨h1, by rw [h1]; exact Table.nrows_head_of_lt df0 10000 h, ?_⟩
    rw [hpre]
    apply List.mem_append_left
    simp [commonItems, h1]
  · intro h
    have h1 : truncateTable df0 = (df0, false) := by
      simp [truncateTable, not_lt.mpr h]
    refine ⟨h1, ?_⟩
    rw [hpre]
    apply List.mem_append_left
    simp [commonItems, h1]

/-- Witness for claim C1: the 10,001-row frame is cut to 10,000 rows,
and the 3-row frame passes through unchanged. -/
theorem exBigTable_nrows : exBigTable.nrows = 10001 := by
  show (List.replicate 10001 (Value.num 1)).length = 10001
  rw [List.length_replicate]

theorem truncation_guard_witness :
    (truncateTable exBigTable).1.nrows = 10000 ∧
    truncateTable exTable = (exTable, false) := by
  constructor
  · exact ((truncation_guard exBigTable exWidgets).1
      (by rw [exBigTable_nrows]; norm_num)).2.1
  · exact ((truncation_guard exTable exWidgets).2 (by decide)).1

/-- Claim C3: the KPI total of a column is the sum of its non-missing
values and the KPI average is their mean — missing values are excluded
from the sum and from the mean's denominator — and both are invariant
under any permutation of the rows. -/
theorem kpi_skipna_perm_invariant (c c' : Col) (h : c'.cells.Perm c.cells) :
    colSum c = c.numCells.sum ∧
    colMean c = c.numCells.sum / c.numCells.length ∧
    colSum c' = colSum c ∧ colMean c' = colMean c := by
  have hperm : c'.numCells.Perm c.numCells := List.Perm.filterMap Value.num? h
  refine ⟨rfl, rfl, hperm.sum_eq, ?_⟩
  unfold colMean
  rw [hperm.sum_eq, hperm.length_eq]

/-- Witness for claim C3 at a column with a missing cell and its
reordering. -/
theorem kpi_skipna_perm_invariant_witness :
    colSum exKpiColPerm = colSum exKpiCol ∧
    colMean exKpiColPerm = colMean exKpiCol := by
  have h := kpi_skipna_perm_invariant exKpiCol exKpiColPerm (by decide)
  exact ⟨h.2.2.1, h.2.2.2⟩

theorem selectbox_mem (options : List String) (idx : ℕ) (s : String)
    (h : selectbox options idx = some s) : s ∈ options := by
  unfold selectbox at h
  split at h
  · cases h
  · exact List.get?_mem h

/-- Claim C6: a column whose dtype is neither numeric nor object
(e.g. a datetime column) lands in neither `numericColumns` nor
`categoricalCols` — it is silently dropped — and consequently no
selectbox drawing its options from those sets can ever offer it to the
KPI or chart stages. -/
theorem other_dtype_silently_dropped (t : Table) (c : Col)
    (hc : c ∈ t) (hd : c.dtype = Dtype.other)
    (hnodup : (t.map Col.name).Nodup) :
    c.name ∉ numericColumns t ∧ c.name ∉ categoricalCols t ∧
    (∀ i s, selectbox (numericColumns t) i = some s → s ≠ c.name) ∧
    (∀ i s, selectbox (categoricalCols t) i = some s → s ≠ c.name) := by
  have hnum : c.name ∉ numericColumns t := by
    intro hmem
    obtain ⟨c', hc', hname⟩ := List.mem_map.mp hmem
    have hfil := List.mem_filter.mp hc'
    have : c' = c := List.inj_on_of_nodup_map hnodup hfil.1 hc hname
    rw [this, hd] at hfil
    simp at hfil
  have hcat : c.name ∉ categoricalCols t := by
    intro hmem
    obtain ⟨c', hc', hname⟩ := List.mem_map.mp hmem
    have hfil := List.mem_filter.mp hc'
    have : c' = c := List.inj_on_of_nodup_map hnodup hfil.1 hc hname
    rw [this, hd] at hfil
    simp at hfil
  refine ⟨hnum, hcat, ?_, ?_⟩
  · intro i s hs hscn
    exact hnum (hscn ▸ selectbox_mem _ _ _ hs)
  · intro i s hs hscn
    exact hcat (hscn ▸ selectbox_mem _ _ _ hs)

/-- Witness for claim C6: the datetime-like "when" column of the
example frame is offered to neither stage. -/
theorem other_dtype_silently_dropped_witness :
    "when" ∉ numericColumns exTable ∧ "when" ∉ categoricalCols exTable := by
  have h := other_dtype_silently_dropped exTable
    ⟨"when", Dtype.other, [Value.otherVal, Value.otherVal, Value.otherVal]⟩
    (by decide) (by decide) (by decide)
  exact ⟨h.1, h.2.1⟩

/-- Claim C4: the summary-statistics step computes count, mean, the
unbiased (`n-1` denominator) sample standard deviation, min, the
linearly interpolated 25/50/75th percentiles and max per numeric
column; on the fixture column [1,2,3,4,5] it yields count 5, mean 3,
min 1, quartiles 2/3/4, max 5, sample variance 5/2, and a standard
deviation √(5/2) within half a thousandth of 1.581 — i.e. 1.581 to
three decimals. -/
theorem describe_fixture :
    (describeCol exStatsCol).count = 5 ∧
    (describeCol exStatsCol).mean = 3 ∧
    (describeCol exStatsCol).var = 5/2 ∧
    (describeCol exStatsCol).min = some 1 ∧
    (describeCol exStatsCol).q25 = 2 ∧
    (describeCol exStatsCol).q50 = 3 ∧
    (describeCol exStatsCol).q75 = 4 ∧
    (describeCol exStatsCol).max = some 5 ∧
    |sampleStd exStatsCol.numCells - 1.581| < 1/2000 := by
  have hcells : exStatsCol.numCells = [1,2,3,4,5] := rfl
  have hvar : sampleVar exStatsCol.numCells = 5/2 := by
    rw [hcells]; norm_num [sampleVar, describeMean]
  refine ⟨rfl, ?_, hvar, rfl, ?_, ?_, ?_, rfl, ?_⟩
  · show describeMean exStatsCol.numCells = 3
    rw [hcells]; norm_num [describeMean]
  · show percentile exStatsCol.numCells (1/4) = 2
    rw [hcells]
    norm_num [percentile, show (Rat.floor 1).toNat = 1 from rfl]
  · show percentile exStatsCol.numCells (1/2) = 3
    rw [hcells]
    norm_num [percentile, show (Rat.floor 2).toNat = 2 from rfl]
  · show percentile exStatsCol.numCells (3/4) = 4
    rw [hcells]
    norm_num [percentile, show (Rat.floor 3).toNat = 3 from rfl]
  · show |Real.sqrt ((sampleVar exStatsCol.numCells : ℚ) : ℝ) - 1.581| < 1/2000
    rw [hvar]
    have hc : (((5/2 : ℚ)) : ℝ) = 5/2 := by norm_num
    rw [hc, abs_sub_lt_iff]
    constructor
    · have h1 : Real.sqrt (5/2) < 1.5815 :=
        (Real.sqrt_lt' (by norm_num)).mpr (by norm_num)
      linarith
    · have h2 : (1.5805 : ℝ) < Real.sqrt (5/2) :=
        (Real.lt_sqrt (by norm_num)).mpr (by norm_num)
      linarith

/-- Claim C5 counterexample: for a frame with exactly one numeric
column, the displayed `describe()` dataframe has eight rows — the eight
statistics of its index — not one row per numeric column. -/
theorem describe_rows_counterexample :
    (numericColumns [exStatsCol]).length = 1 ∧
    statsRowCount [exStatsCol] = 8 ∧
    statsRowCount [exStatsCol] ≠ (numericColumns [exStatsCol]).length := by
  exact ⟨rfl, rfl, by decide⟩

/-- Claim C5 (amended): for every frame with at least one numeric
column, the displayed summary-statistics table has exactly one column
per numeric column — same labels, same order — while its rows are the
fixed eight statistics. -/
theorem describe_one_col_per_numeric (df : Table)
    (h : numericColumns df ≠ []) :
    (describeTable df).map Prod.fst = numericColumns df ∧
    statsColCount df = (numericColumns df).length ∧
    statsRowCount df = 8 := by
  refine ⟨?_, ?_, rfl⟩
  · rw [describeTable, numericColumns, List.map_map]
    rfl
  · simp [statsColCount, describeTable, numericColumns, List.length_map]

/-- Witness for the amended claim C5 at the one-numeric-column frame. -/
theorem describe_one_col_per_numeric_witness :
    (describeTable [exStatsCol]).map Prod.fst = numericColumns [exStatsCol] ∧
    statsColCount [exStatsCol] = (numericColumns [exStatsCol]).length ∧
    statsRowCount [exStatsCol] = 8 :=
  describe_one_col_per_numeric [exStatsCol] (by decide)

/-- Claim C7: any exception — a parse failure from loading, or one
propagating out of the aggregation/render pipeline — is caught by the
single top-level handler and rendered as the generic error message plus
the file-format hint; `runApp` is a total function, so no exception
escapes the render, and after the failure the page still holds
everything drawn before it. -/
theorem top_level_handler (inp : Except String Table) (w : Widgets) :
    (∀ e, inp = .error e → runApp inp w = errorPage e) ∧
    (∀ df0, inp = .ok df0 →
      (∀ items e, renderLoaded df0 w = (items, some e) →
        runApp inp w = items ++ errorPage e) ∧
      (∀ items, renderLoaded df0 w = (items, none) →
        runApp inp w = items)) := by
  refine ⟨fun e he => by rw [he]; rfl, fun df0 hdf => ⟨?_, ?_⟩⟩
  · intro items e hrl
    rw [hdf]
    show (match renderLoaded df0 w with
      | (items, none) => items
      | (items, some e) => items ++ errorPage e) = items ++ errorPage e
    rw [hrl]
  · intro items hrl
    rw [hdf]
    show (match renderLoaded df0 w with
      | (items, none) => items
      | (items, some e) => items ++ errorPage e) = items
    rw [hrl]

/-- Witness for claim C7: a parse failure renders exactly the generic
error page. -/
theorem top_level_handler_witness :
    runApp (.error "ParseError") exWidgets = errorPage "ParseError" :=
  (top_level_handler (.error "ParseError") exWidgets).1 "ParseError" rfl

theorem numericColumns_head (t : Table) (n : ℕ) :
    numericColumns (t.head n) = numericColumns t := by
  unfold numericColumns Table.head
  rw [List.filter_map, List.map_map]
  rfl

theorem commonItems_not_kpi (df0 : Table) :
    ∀ x ∈ commonItems df0, x.isKpiChartOrStats = false := by
  intro x hx
  unfold commonItems at hx
  rcases List.mem_append.mp hx with h | h
  · by_cases hb : (truncateTable df0).2
    · rw [if_pos hb] at h
      simp at h
      rw [h]; rfl
    · rw [if_neg hb] at h
      simp at h
  · simp at h
    rcases h with h|h|h|h|h|h <;> (rw [h]; rfl)

/-- Claim C8: for a loaded frame with no numeric columns the page is
exactly the common items followed by the no-numeric-columns warning:
the three metric cards are still rendered (inside the common prefix),
and no KPI card, chart or summary-statistics item appears anywhere. -/
theorem no_numeric_branch (df0 : Table) (w : Widgets)
    (h : numericColumns df0 = []) :
    runApp (.ok df0) w = commonItems df0 ++ [RenderItem.warning noNumericMsg] ∧
    RenderItem.metric "Total Rows" (truncateTable df0).1.nrows ∈ commonItems df0 ∧
    RenderItem.metric "Total Columns" (truncateTable df0).1.length ∈ commonItems df0 ∧
    RenderItem.metric "Numeric Columns" 0 ∈ commonItems df0 ∧
    (∀ x ∈ runApp (.ok df0) w, x.isKpiChartOrStats = false) := by
  have hnc : numericColumns (truncateTable df0).1 = [] := by
    unfold truncateTable
    by_cases hgt : 10000 < df0.nrows
    · rw [if_pos hgt]
      show numericColumns (df0.head 10000) = []
      rw [numericColumns_head, h]
    · rw [if_neg hgt]
      exact h
  have hrun : runApp (.ok df0) w =
      commonItems df0 ++ [RenderItem.warning noNumericMsg] := by
    simp [runApp, renderLoaded, hnc]
  refine ⟨hrun, ?_, ?_, ?_, ?_⟩
  · apply List.mem_append_right; simp
  · apply List.mem_append_right; simp
  · apply List.mem_append_right; simp [hnc]
  · intro x hx
    rw [hrun] at hx
    rcases List.mem_append.mp hx with hc | hw
    · exact commonItems_not_kpi df0 x hc
    · simp at hw
      rw [hw]; rfl

/-- Witness for claim C8 at the frame with only a categorical column. -/
theorem no_numeric_branch_witness :
    runApp (.ok exNoNumTable) exWidgets =
      commonItems exNoNumTable ++ [RenderItem.warning noNumericMsg] :=
  (no_numeric_branch exNoNumTable exWidgets (by decide)).1

theorem find_head_name (df : Table) (n : ℕ) (s : String) :
    (df.head n).find? (fun c => decide (c.name = s)) =
      Option.map (Col.head n) (df.find? (fun c => decide (c.name = s))) := by
  unfold Table.head
  rw [List.find?_map]
  rfl

theorem create_bar_chart_eq (df : Table) (s : String) (c : Col)
    (hfind : df.find? (fun c => decide (c.name = s)) = some c) :
    create_bar_chart df s = .ok (c.cells.take 20) := by
  unfold create_bar_chart
  rw [find_head_name, hfind]
  rfl

theorem create_line_chart_eq (df : Table) (s : String) (c : Col)
    (hfind : df.find? (fun c => decide (c.name = s)) = some c) :
    create_line_chart df s = .ok (c.cells.take 50) := by
  unfold create_line_chart
  rw [find_head_name, hfind]
  rfl

theorem create_histogram_eq (df : Table) (s : String) (c : Col)
    (hfind : df.find? (fun c => decide (c.name = s)) = some c) :
    create_histogram df s = .ok (c.cells, 20) := by
  unfold create_histogram
  rw [hfind]

theorem create_pie_chart_eq (df : Table) (sc sv : String) (c1 c2 : Col)
    (h1 : df.find? (fun c => decide (c.name = sc)) = some c1)
    (h2 : df.find? (fun c => decide (c.name = sv)) = some c2)
    (hd1 : c1.dtype = Dtype.obj) (hd2 : c2.dtype = Dtype.num) :
    create_pie_chart df sc sv = .ok (pieSlices c1.cells c2.cells) := by
  unfold create_pie_chart
  rw [h1, h2]
  simp [hd1, hd2]

/-- Claim C9: the bar-chart builder uses exactly the first 20 rows of
the chosen column in original table order — its data is a prefix of the
column, one bar per retained row (`min 20 (row count)` of them), and a
column of at most 20 rows is used in full. -/
theorem bar_first20 (df : Table) (column : String) (c : Col)
    (hfind : df.find? (fun c => decide (c.name = column)) = some c) :
    create_bar_chart df column = .ok (c.cells.take 20) ∧
    (∃ rest, c.cells = c.cells.take 20 ++ rest) ∧
    (c.cells.take 20).length = min 20 c.cells.length ∧
    (c.cells.length ≤ 20 → c.cells.take 20 = c.cells) := by
  refine ⟨create_bar_chart_eq df column c hfind, ?_, ?_, ?_⟩
  · exact ⟨c.cells.drop 20, (List.take_append_drop 20 c.cells).symm⟩
  · exact List.length_take 20 c.cells
  · exact fun h => List.take_of_length_le h

/-- Witness for claim C9: the 3-row example column passes through the
bar builder whole and in order. -/
theorem bar_first20_witness :
    create_bar_chart exTable "amount" =
      .ok [Value.num 3, Value.missing, Value.num 1] := by
  have h := bar_first20 exTable "amount"
    ⟨"amount", Dtype.num, [Value.num 3, Value.missing, Value.num 1]⟩ (by rfl)
  rw [h.1]
  rfl

theorem find_of_mem_typed (df : Table) (s : String) (d : Dtype)
    (hnodup : (df.map Col.name).Nodup)
    (hs : s ∈ (df.filter (fun c => decide (c.dtype = d))).map Col.name) :
    ∃ c, df.find? (fun c => decide (c.name = s)) = some c ∧
      c.dtype = d ∧ c.name = s := by
  obtain ⟨c, hcf, hname⟩ := List.mem_map.mp hs
  have hfil := List.mem_filter.mp hcf
  have hdt : c.dtype = d := by simpa using hfil.2
  have hsome : (df.find? (fun c => decide (c.name = s))).isSome := by
    rw [List.find?_isSome]
    exact ⟨c, hfil.1, by simp [hname]⟩
  obtain ⟨c', hc'⟩ := Option.isSome_iff_exists.mp hsome
  have hpc' : c'.name = s := by simpa using List.find?_some hc'
  have hmem' : c' ∈ df := List.mem_of_find?_eq_some hc'
  have hcc : c' = c :=
    List.inj_on_of_nodup_map hnodup hmem' hfil.1 (by rw [hpc', hname])
  exact ⟨c', hc', by rw [hcc]; exact hdt, hpc'⟩

theorem selectbox_some (options : List String) (idx : ℕ) (h : options ≠ []) :
    ∃ s, selectbox options idx = some s := by
  unfold selectbox
  rw [if_neg (by simpa [List.isEmpty_iff] using h)]
  have hlt : idx % options.length < options.length :=
    Nat.mod_lt _ (List.length_pos.mpr h)
  exact ⟨options.get ⟨_, hlt⟩, List.get?_eq_get hlt⟩

/-- Claim C10: when the frame's column names are distinct, every column
the widget layer can pass to a chart builder comes from the matching
set — bar/line/histogram and the pie value from `numericColumns`, the
pie category from `categoricalCols` — and every such builder invocation
succeeds: the mismatched-column library-error path of the builders is
unreachable through the UI, so the sequential chart render never
carries an exception. -/
theorem widget_columns_safe (df : Table) (w : Widgets)
    (hnodup : (df.map Col.name).Nodup) :
    (∀ c, selectbox (numericColumns df) w.barIdx = some c →
      c ∈ numericColumns df ∧ ∃ d, create_bar_chart df c = .ok d) ∧
    (∀ c, selectbox (numericColumns df) w.lineIdx = some c →
      c ∈ numericColumns df ∧ ∃ d, create_line_chart df c = .ok d) ∧
    (∀ c, selectbox (numericColumns df) w.histIdx = some c →
      c ∈ numericColumns df ∧ ∃ d, create_histogram df c = .ok d) ∧
    (∀ cc vc, selectbox (categoricalCols df) w.pieCatIdx = some cc →
      selectbox (numericColumns df) w.pieValIdx = some vc →
      cc ∈ categoricalCols df ∧ vc ∈ numericColumns df ∧
      ∃ s, create_pie_chart df cc vc = .ok s) ∧
    (renderRest df w).2 = none := by
  have hnum : ∀ s, s ∈ numericColumns df →
      ∃ c, df.find? (fun c => decide (c.name = s)) = some c ∧
        c.dtype = Dtype.num := by
    intro s hs
    obtain ⟨c, hfind, hdt, _⟩ := find_of_mem_typed df s Dtype.num hnodup hs
    exact ⟨c, hfind, hdt⟩
  have hcatf : ∀ s, s ∈ categoricalCols df →
      ∃ c, df.find? (fun c => decide (c.name = s)) = some c ∧
        c.dtype = Dtype.obj := by
    intro s hs
    obtain ⟨c, hfind, hdt, _⟩ := find_of_mem_typed df s Dtype.obj hnodup hs
    exact ⟨c, hfind, hdt⟩
  have hbarok : ∀ c, c ∈ numericColumns df →
      ∃ d, create_bar_chart df c = .ok d := by
    intro c hc
    obtain ⟨col, hfind, _⟩ := hnum c hc
    exact ⟨_, create_bar_chart_eq df c col hfind⟩
  have hlineok : ∀ c, c ∈ numericColumns df →
      ∃ d, create_line_chart df c = .ok d := by
    intro c hc
    obtain ⟨col, hfind, _⟩ := hnum c hc
    exact ⟨_, create_line_chart_eq df c col hfind⟩
  have hhistok : ∀ c, c ∈ numericColumns df →
      ∃ d, create_histogram df c = .ok d := by
    intro c hc
    obtain ⟨col, hfind, _⟩ := hnum c hc
    exact ⟨_, create_histogram_eq df c col hfind⟩
  have hpieok : ∀ cc vc, cc ∈ categoricalCols df → vc ∈ numericColumns df →
      ∃ s, create_pie_chart df cc vc = .ok s := by
    intro cc vc hcc hvc
    obtain ⟨c1, hf1, hd1⟩ := hcatf cc hcc
    obtain ⟨c2, hf2, hd2⟩ := hnum vc hvc
    exact ⟨_, create_pie_chart_eq df cc vc c1 c2 hf1 hf2 hd1 hd2⟩
  have hbar : ∃ l, barStep df (numericColumns df) w = .ok l := by
    rcases hsel : selectbox (numericColumns df) w.barIdx with _ | col
    · exact ⟨[], by unfold barStep; rw [hsel]⟩
    · obtain ⟨d, hd⟩ := hbarok col (selectbox_mem _ _ _ hsel)
      exact ⟨[RenderItem.barChart col d],
        by unfold barStep; rw [hsel]; simp [hd, Except.map]⟩
  have hline : ∃ l, lineStep df (numericColumns df) w = .ok l := by
    rcases hsel : selectbox (numericColumns df) w.lineIdx with _ | col
    · exact ⟨[], by unfold lineStep; rw [hsel]⟩
    · obtain ⟨d, hd⟩ := hlineok col (selectbox_mem _ _ _ hsel)
      exact ⟨[RenderItem.lineChart col d],
        by unfold lineStep; rw [hsel]; simp [hd, Except.map]⟩
  have hhist : ∃ l, histStep df (numericColumns df) w = .ok l := by
    rcases hsel : selectbox (numericColumns df) w.histIdx with _ | col
    · exact ⟨[], by unfold histStep; rw [hsel]⟩
    · obtain ⟨d, hd⟩ := hhistok col (selectbox_mem _ _ _ hsel)
      exact ⟨[RenderItem.histChart col d.1 d.2],
        by unfold histStep; rw [hsel]; simp [hd, Except.map]⟩
  have hpie : ∃ l, pieStep df (numericColumns df) w = .ok l := by
    by_cases hce : (categoricalCols df).isEmpty
    · exact ⟨[], by unfold pieStep; rw [if_pos hce]⟩
    · have hcne : categoricalCols df ≠ [] := by
        simpa [List.isEmpty_iff] using hce
      rcases hsc : selectbox (categoricalCols df) w.pieCatIdx with _ | cc
      · obtain ⟨s, hsome⟩ := selectbox_some _ w.pieCatIdx hcne
        rw [hsc] at hsome
        cases hsome
      · rcases hsv : selectbox (numericColumns df) w.pieValIdx with _ | vc
        · exact ⟨[], by unfold pieStep; rw [if_neg hce, hsc, hsv]⟩
        · obtain ⟨s, hok⟩ := hpieok cc vc (selectbox_mem _ _ _ hsc)
            (selectbox_mem _ _ _ hsv)
          exact ⟨[RenderItem.pieChart cc vc s],
            by unfold pieStep; rw [if_neg hce, hsc, hsv]; simp [hok, Except.map]⟩
  refine ⟨?_, ?_, ?_, ?_, ?_⟩
  · intro c hsel
    exact ⟨selectbox_mem _ _ _ hsel, hbarok c (selectbox_mem _ _ _ hsel)⟩
  · intro c hsel
    exact ⟨selectbox_mem _ _ _ hsel, hlineok c (selectbox_mem _ _ _ hsel)⟩
  · intro c hsel
    exact ⟨selectbox_mem _ _ _ hsel, hhistok c (selectbox_mem _ _ _ hsel)⟩
  · intro cc vc hsc hsv
    exact ⟨selectbox_mem _ _ _ hsc, selectbox_mem _ _ _ hsv,
      hpieok cc vc (selectbox_mem _ _ _ hsc) (selectbox_mem _ _ _ hsv)⟩
  · obtain ⟨l1, h1⟩ := hbar
    obtain ⟨l2, h2⟩ := hline
    obtain ⟨l3, h3⟩ := hhist
    obtain ⟨l4, h4⟩ := hpie
    unfold renderRest
    rw [h1, h2, h3, h4]

/-- Witness for claim C10 at the example frame: the first numeric and
categorical options are selected and all builders succeed, so the chart
render carries no exception. -/
theorem widget_columns_safe_witness :
    selectbox (numericColumns exTable) exWidgets.barIdx = some "amount" ∧
    ("amount" ∈ numericColumns exTable ∧
      ∃ d, create_bar_chart exTable "amount" = .ok d) ∧
    (renderRest exTable exWidgets).2 = none := by
  have h := widget_columns_safe exTable exWidgets (by decide)
  have hsel : selectbox (numericColumns exTable) exWidgets.barIdx =
      some "amount" := by decide
  exact ⟨hsel, h.1 "amount" hsel, h.2.2.2.2⟩
